import Mathlib

/-!
Shallow embedding of the `api-predict` DePIN compatibility service.

Sources embedded:
- `internal/models` (data model, `GetPerformanceRating`, `GetSystemRating`)
- `internal/service/compatibility.go` (Scorer `analyzeProjectCompatibility`,
  Aggregator `PredictCompatibility`, `isOSCompatible`,
  `calculatePerformanceBonus`, `generateRecommendations`,
  `analyzeUpgradeNeeds`, `getBestProjects`)
- `internal/data` CSV loader (`LoadDePINSpecs`, `parseProjectRecord`,
  `validateProject`, `createFieldMap`, field helpers)

Modelling conventions:
- Go `int` is modelled as `Int` (no claim depends on 64-bit overflow).
- Go `float64` scores are modelled exactly in integer hundredths: the source
  only ever adds and subtracts multiples of 0.01 (penalties 0.30/0.25/0.20/0.10,
  bonuses 0.05/0.03/0.02, cap 0.15, clamp bounds 0.0/1.0), so a score of `x`
  hundredths stands for the real value `x / 100`.  All comparisons the claims
  depend on are at distance ≥ 0.01 from any attainable value, far above IEEE
  double rounding error, so verdicts agree with the float program.
- Percentage rate and average score (true float quotients) are modelled in `ℚ`.
- `fmt.Sprintf("%d", n)` is modelled by `toString (n : Int)`.
- Timestamps (`time.Now()`) are passed in as an explicit `Nat` parameter.
-/

namespace ApiPredict

/-- `models.SystemSpec`: the evaluated machine's capabilities. -/
structure SystemSpec where
  cpuCores : Int
  ramGB : Int
  storageGB : Int
  hasSSD : Bool
  hasGPU : Bool
  gpuVramGB : Int
  networkMbps : Int
  os : String
  deriving DecidableEq

/-- `models.DePINProject`: one project's requirement record. -/
structure DePINProject where
  name : String
  type : String
  nodeType : String
  cpuCoresMin : Int
  ramGBMin : Int
  ramGBRecommended : Int
  storageGBMin : Int
  storageType : String
  gpuRequired : Bool
  gpuVramGBMin : Int
  networkMbpsMin : Int
  supportedOS : String
  estimatedCostMin : Int
  estimatedCostMax : Int
  costCategory : String
  homeFriendly : Bool
  description : String
  deriving DecidableEq

/-- `models.CompatibilityResult` (scores in hundredths). -/
structure CompatibilityResult where
  name : String
  compatible : Bool
  compatibilityScore : Int
  performanceRating : String
  estimatedCost : String
  missingRequirements : List String
  recommendedUpgrades : List String
  warnings : List String
  deriving DecidableEq

/-- `models.PredictionSummary` (rate and average in `ℚ`; average in hundredths). -/
structure PredictionSummary where
  totalProjects : Nat
  compatibleCount : Nat
  incompatibleCount : Nat
  compatibilityRate : ℚ
  averageScore : ℚ
  systemRating : String
  deriving DecidableEq

/-- `models.PredictionResponse`; `generatedAt` is the `time.Now()` timestamp. -/
structure PredictionResponse where
  compatibleProjects : List CompatibilityResult
  incompatibleProjects : List CompatibilityResult
  summary : PredictionSummary
  recommendations : List String
  generatedAt : Nat
  deriving DecidableEq

/-- `models.GetPerformanceRating`: rating from the clamped score
(thresholds 0.9 / 0.7 / 0.5 in hundredths). -/
def GetPerformanceRating (score : Int) : String :=
  if score ≥ 90 then "Excellent"
  else if score ≥ 70 then "Good"
  else if score ≥ 50 then "Fair"
  else "Poor"

/-- `models.GetSystemRating`: point-scoring classifier over the system alone. -/
def GetSystemRating (spec : SystemSpec) : String :=
  let cpuScore : Int :=
    if spec.cpuCores ≥ 12 then 3 else if spec.cpuCores ≥ 8 then 2
    else if spec.cpuCores ≥ 4 then 1 else 0
  let ramScore : Int :=
    if spec.ramGB ≥ 32 then 3 else if spec.ramGB ≥ 16 then 2
    else if spec.ramGB ≥ 8 then 1 else 0
  let gpuScore : Int :=
    if spec.hasGPU && decide (spec.gpuVramGB ≥ 12) then 3
    else if spec.hasGPU && decide (spec.gpuVramGB ≥ 6) then 2
    else if spec.hasGPU then 1 else 0
  let storageScore : Int :=
    if spec.hasSSD && decide (spec.storageGB ≥ 1000) then 2
    else if spec.hasSSD || decide (spec.storageGB ≥ 500) then 1 else 0
  let networkScore : Int :=
    if spec.networkMbps ≥ 500 then 2 else if spec.networkMbps ≥ 100 then 1 else 0
  let score := cpuScore + ramScore + gpuScore + storageScore + networkScore
  if score ≥ 12 then "Extreme"
  else if score ≥ 8 then "High-End"
  else if score ≥ 5 then "Mid-Range"
  else "Entry Level"

/-- Whitespace-trimming of a character list, both ends
(`strings.TrimSpace`; the Go function trims Unicode white space, of which only
ASCII white space can occur in these inputs). -/
def goTrimChars (l : List Char) : List Char :=
  ((l.dropWhile Char.isWhitespace).reverse.dropWhile Char.isWhitespace).reverse

/-- `strings.TrimSpace`, modelled structurally on the character list so that it
reduces inside kernel computation. -/
def goTrim (s : String) : String := String.mk (goTrimChars s.data)

/-- `strings.ToUpper` (ASCII-relevant part), structurally on characters. -/
def goToUpper (s : String) : String := String.mk (s.data.map Char.toUpper)

/-- `strings.ToLower` (ASCII-relevant part), structurally on characters. -/
def goToLower (s : String) : String := String.mk (s.data.map Char.toLower)

/-- Split a character list on a separator character (`strings.Split` with a
one-character separator). -/
def splitOnChar (sep : Char) : List Char → List (List Char)
  | [] => [[]]
  | c :: cs =>
    match splitOnChar sep cs with
    | [] => [[c]]
    | h :: t => if c = sep then [] :: h :: t else (c :: h) :: t

/-- `strings.Split(s, sep)` for a one-character separator. -/
def goSplit (s : String) (sep : Char) : List String :=
  (splitOnChar sep s.data).map (fun cs => String.mk cs)

/-- `service.isOSCompatible`: empty `supportedOS` means unrestricted; otherwise
comma-split, trim each entry, exact match. -/
def isOSCompatible (systemOS supportedOS : String) : Bool :=
  if supportedOS = "" then true
  else (goSplit supportedOS ',').any (fun os => goTrim os == systemOS)

/-- CPU sub-bonus of `calculatePerformanceBonus` (hundredths). -/
def cpuBonus (s : SystemSpec) (p : DePINProject) : Int :=
  if s.cpuCores > p.cpuCoresMin * 2 then 5
  else if s.cpuCores > p.cpuCoresMin then 2 else 0

/-- RAM sub-bonus of `calculatePerformanceBonus` (hundredths). -/
def ramBonus (s : SystemSpec) (p : DePINProject) : Int :=
  if s.ramGB > p.ramGBRecommended * 2 then 5
  else if s.ramGB > p.ramGBRecommended then 2 else 0

/-- Network sub-bonus of `calculatePerformanceBonus` (hundredths). -/
def networkBonus (s : SystemSpec) (p : DePINProject) : Int :=
  if s.networkMbps > p.networkMbpsMin * 2 then 3 else 0

/-- High-end-GPU sub-bonus of `calculatePerformanceBonus` (hundredths). -/
def gpuBonus (s : SystemSpec) (p : DePINProject) : Int :=
  if s.hasGPU && decide (s.gpuVramGB > 8) then 2 else 0

/-- `service.calculatePerformanceBonus`: sub-bonuses sum, capped at 0.15. -/
def calculatePerformanceBonus (s : SystemSpec) (p : DePINProject) : Int :=
  min (cpuBonus s p + ramBonus s p + networkBonus s p + gpuBonus s p) 15

/-- CPU check of the Scorer: failure condition. -/
def cpuFails (s : SystemSpec) (p : DePINProject) : Bool :=
  decide (s.cpuCores < p.cpuCoresMin)

/-- RAM minimum check of the Scorer: failure condition. -/
def ramFails (s : SystemSpec) (p : DePINProject) : Bool :=
  decide (s.ramGB < p.ramGBMin)

/-- Storage capacity check of the Scorer: failure condition. -/
def storageFails (s : SystemSpec) (p : DePINProject) : Bool :=
  decide (s.storageGB < p.storageGBMin)

/-- SSD requirement check of the Scorer: failure condition. -/
def ssdFails (s : SystemSpec) (p : DePINProject) : Bool :=
  (p.storageType == "SSD") && !s.hasSSD

/-- GPU presence check of the Scorer: failure condition. -/
def gpuFails (s : SystemSpec) (p : DePINProject) : Bool :=
  p.gpuRequired && !s.hasGPU

/-- GPU VRAM check of the Scorer (the `else if` branch: only evaluated when the
GPU presence check did not fail). -/
def vramFails (s : SystemSpec) (p : DePINProject) : Bool :=
  !gpuFails s p && decide (p.gpuVramGBMin > 0) && decide (s.gpuVramGB < p.gpuVramGBMin)

/-- Network speed check of the Scorer: failure condition. -/
def networkFails (s : SystemSpec) (p : DePINProject) : Bool :=
  decide (s.networkMbps < p.networkMbpsMin)

/-- OS support check of the Scorer: failure condition. -/
def osFails (s : SystemSpec) (p : DePINProject) : Bool :=
  !isOSCompatible s.os p.supportedOS

/-- Score delta of the CPU check: `score -= 0.3` on failure. -/
def cpuDelta (s : SystemSpec) (p : DePINProject) : Int :=
  if s.cpuCores < p.cpuCoresMin then -30 else 0

/-- Score delta of the RAM check: `-0.3` below minimum, else `-0.1` below
recommended. -/
def ramDelta (s : SystemSpec) (p : DePINProject) : Int :=
  if s.ramGB < p.ramGBMin then -30
  else if s.ramGB < p.ramGBRecommended then -10 else 0

/-- Score delta of the storage capacity check: `-0.2` on failure. -/
def storageDelta (s : SystemSpec) (p : DePINProject) : Int :=
  if s.storageGB < p.storageGBMin then -20 else 0

/-- Score delta of the SSD check: `-0.25` if required and absent, `+0.05` if
required and present. -/
def ssdDelta (s : SystemSpec) (p : DePINProject) : Int :=
  if (p.storageType == "SSD") && !s.hasSSD then -25
  else if (p.storageType == "SSD") && s.hasSSD then 5 else 0

/-- Score delta of the GPU check: `-0.4` for missing required GPU, else `-0.3`
for a VRAM shortfall. -/
def gpuDelta (s : SystemSpec) (p : DePINProject) : Int :=
  if p.gpuRequired && !s.hasGPU then -40
  else if decide (p.gpuVramGBMin > 0) && decide (s.gpuVramGB < p.gpuVramGBMin) then -30
  else 0

/-- Score delta of the network speed check: `-0.2` on failure. -/
def networkDelta (s : SystemSpec) (p : DePINProject) : Int :=
  if s.networkMbps < p.networkMbpsMin then -20 else 0

/-- Score delta of the OS check: `-0.3` on failure. -/
def osDelta (s : SystemSpec) (p : DePINProject) : Int :=
  if isOSCompatible s.os p.supportedOS then 0 else -30

/-- `math.Max(0.0, math.Min(1.0, score))` in hundredths. -/
def clamp (x : Int) : Int := max 0 (min 100 x)

/-- `fmt.Sprintf("CPU cores: need %d, have %d", ...)`. -/
def cpuMsg (n h : Int) : String :=
  "CPU cores: need " ++ toString n ++ ", have " ++ toString h

/-- `fmt.Sprintf("RAM: need %dGB, have %dGB", ...)`. -/
def ramMsg (n h : Int) : String :=
  "RAM: need " ++ toString n ++ "GB, have " ++ toString h ++ "GB"

/-- `fmt.Sprintf("RAM upgrade to %dGB recommended for optimal performance", ...)`. -/
def ramUpgradeMsg (n : Int) : String :=
  "RAM upgrade to " ++ toString n ++ "GB recommended for optimal performance"

/-- `fmt.Sprintf("Storage: need %dGB, have %dGB", ...)`. -/
def storageMsg (n h : Int) : String :=
  "Storage: need " ++ toString n ++ "GB, have " ++ toString h ++ "GB"

/-- `fmt.Sprintf("GPU VRAM: need %dGB, have %dGB", ...)`. -/
def vramMsg (n h : Int) : String :=
  "GPU VRAM: need " ++ toString n ++ "GB, have " ++ toString h ++ "GB"

/-- `fmt.Sprintf("Network speed: need %dMbps, have %dMbps", ...)`. -/
def networkMsg (n h : Int) : String :=
  "Network speed: need " ++ toString n ++ "Mbps, have " ++ toString h ++ "Mbps"

/-- `fmt.Sprintf("OS not supported: need one of [%s], have %s", ...)`. -/
def osMsg (supported os : String) : String :=
  "OS not supported: need one of [" ++ supported ++ "], have " ++ os

/-- `fmt.Sprintf("$%d-$%d/month", ...)`. -/
def costMsg (a b : Int) : String :=
  "$" ++ toString a ++ "-$" ++ toString b ++ "/month"

/-- `service.analyzeProjectCompatibility`, the Scorer.  The Go function mutates
`result` and `score` through a fixed sequence of independent checks; each check
here contributes its failure flag, its score delta, and its diagnostic, in the
source order.  `compatible` starts `true` and is forced `false` by every failing
check; the final score is the clamp of the accumulated deltas plus the
performance bonus. -/
def analyzeProjectCompatibility (s : SystemSpec) (p : DePINProject) : CompatibilityResult :=
  let score : Int :=
    100 + cpuDelta s p + ramDelta s p + storageDelta s p + ssdDelta s p +
      gpuDelta s p + networkDelta s p + osDelta s p + calculatePerformanceBonus s p
  let compatible :=
    !cpuFails s p && !ramFails s p && !storageFails s p && !ssdFails s p &&
      !gpuFails s p && !vramFails s p && !networkFails s p && !osFails s p
  let missing :=
    (if cpuFails s p then [cpuMsg p.cpuCoresMin s.cpuCores] else []) ++
    (if ramFails s p then [ramMsg p.ramGBMin s.ramGB] else []) ++
    (if storageFails s p then [storageMsg p.storageGBMin s.storageGB] else []) ++
    (if ssdFails s p then ["SSD storage required"] else []) ++
    (if gpuFails s p then ["Dedicated GPU required"] else []) ++
    (if vramFails s p then [vramMsg p.gpuVramGBMin s.gpuVramGB] else []) ++
    (if networkFails s p then [networkMsg p.networkMbpsMin s.networkMbps] else []) ++
    (if osFails s p then [osMsg p.supportedOS s.os] else [])
  let upgrades :=
    if !ramFails s p && decide (s.ramGB < p.ramGBRecommended)
    then [ramUpgradeMsg p.ramGBRecommended] else []
  let finalScore := clamp score
  { name := p.name
    compatible := compatible
    compatibilityScore := finalScore
    performanceRating := GetPerformanceRating finalScore
    estimatedCost := costMsg p.estimatedCostMin p.estimatedCostMax
    missingRequirements := missing
    recommendedUpgrades := upgrades
    warnings := if !p.homeFriendly then ["This project may not be suitable for home use"] else [] }

/-- String containment (`strings.Contains(s, pat)`): `pat` occurs as a
contiguous substring of `s` (character-level; all strings involved are such
that byte-level and character-level matching agree). -/
def strContains (s pat : String) : Bool :=
  decide (pat.toList <:+: s.toList)

/-- The five upgrade-issue counters local to `analyzeUpgradeNeeds`
(`ramIssues`, `cpuIssues`, `gpuIssues`, `storageIssues`, `networkIssues`). -/
structure UpgradeCounts where
  ram : Nat
  cpu : Nat
  gpu : Nat
  storage : Nat
  network : Nat
  deriving DecidableEq

/-- The `switch` in `analyzeUpgradeNeeds`: classify one missing-requirement
entry by case-sensitive substring match, first match wins, and bump the
corresponding counter (no counter if nothing matches). -/
def countIssue (c : UpgradeCounts) (req : String) : UpgradeCounts :=
  if strContains req "RAM" then { c with ram := c.ram + 1 }
  else if strContains req "CPU" then { c with cpu := c.cpu + 1 }
  else if strContains req "GPU" then { c with gpu := c.gpu + 1 }
  else if strContains req "Storage" || strContains req "SSD" then
    { c with storage := c.storage + 1 }
  else if strContains req "Network" then { c with network := c.network + 1 }
  else c

/-- Upgrade suggestion emitted for the RAM counter. -/
def ramSuggestion : String := "üíæ Consider upgrading RAM for better project compatibility"

/-- Upgrade suggestion emitted for the CPU counter. -/
def cpuSuggestion : String := "üñ•Ô∏è A CPU upgrade would significantly improve project support"

/-- Upgrade suggestion emitted for the GPU counter. -/
def gpuSuggestion : String := "üéÆ Adding a dedicated GPU would unlock AI and compute-intensive projects"

/-- Upgrade suggestion emitted for the storage counter. -/
def storageSuggestion : String := "üíø Consider upgrading to SSD storage or increasing capacity"

/-- Upgrade suggestion emitted for the network counter. -/
def networkSuggestion : String := "üåê Faster internet connection would improve project compatibility"

/-- `service.analyzeUpgradeNeeds`: count missing-requirement entries per
category over all incompatible results, then emit each category's suggestion
when its counter strictly exceeds `len(incompatible) / 3` (integer division). -/
def analyzeUpgradeNeeds (_system : SystemSpec) (incompatible : List CompatibilityResult) : List String :=
  let counts := incompatible.foldl
    (fun acc result => result.missingRequirements.foldl countIssue acc)
    { ram := 0, cpu := 0, gpu := 0, storage := 0, network := 0 }
  let threshold := incompatible.length / 3
  (if counts.ram > threshold then [ramSuggestion] else []) ++
  (if counts.cpu > threshold then [cpuSuggestion] else []) ++
  (if counts.gpu > threshold then [gpuSuggestion] else []) ++
  (if counts.storage > threshold then [storageSuggestion] else []) ++
  (if counts.network > threshold then [networkSuggestion] else [])

/-- `service.getBestProjects`: the top `n` compatible projects. -/
def getBestProjects (compatible : List CompatibilityResult) (n : Nat) : List CompatibilityResult :=
  if compatible.length ≤ n then compatible else compatible.take n

/-- `service.generateRecommendations`: overall-assessment string by rate
thresholds, upgrade-need suggestions, then the top-3 projects line.
`projects` stands for the service's loaded catalog `s.projects`. -/
def generateRecommendations (projects : List DePINProject) (system : SystemSpec)
    (compatible incompatible : List CompatibilityResult) : List String :=
  let compatibilityRate : ℚ := (compatible.length : ℚ) / (projects.length : ℚ)
  let overall :=
    if compatibilityRate ≥ 8/10 then
      "üéâ Excellent! Your system is compatible with most DePIN projects."
    else if compatibilityRate ≥ 6/10 then
      "üëç Good compatibility! Your system works well with many DePIN projects."
    else if compatibilityRate ≥ 4/10 then
      "‚ö†Ô∏è Fair compatibility. Consider upgrading for better project support."
    else
      "üìà Limited compatibility. Upgrades recommended for better DePIN support."
  let recommendations := [overall] ++ analyzeUpgradeNeeds system incompatible
  let projectLine :=
    if compatible.length > 0 then
      let bestProjects := getBestProjects compatible 3
      let projectNames := bestProjects.map (fun proj => proj.name)
      ["üöÄ Recommended projects for your system: " ++ String.intercalate ", " projectNames]
    else []
  recommendations ++ projectLine

/-- Descending-score comparator used for `sort.Slice(..., score[i] > score[j])`
(ties left unspecified by the source; modelled as stable merge sort under the
reflexive closure of that order). -/
def byScoreDesc (a b : CompatibilityResult) : Bool :=
  decide (b.compatibilityScore ≤ a.compatibilityScore)

/-- `service.PredictCompatibility`, the Aggregator: score every project, split
by the compatible flag, sort each side by descending score, build the summary
and recommendations.  `now` models `time.Now()`. -/
def PredictCompatibility (projects : List DePINProject) (system : SystemSpec)
    (now : Nat) : PredictionResponse :=
  let results := projects.map (analyzeProjectCompatibility system)
  let compatible := results.filter (fun r => r.compatible)
  let incompatible := results.filter (fun r => !r.compatible)
  let totalScore : Int := (results.map (fun r => r.compatibilityScore)).sum
  let compatibleSorted := compatible.mergeSort byScoreDesc
  let incompatibleSorted := incompatible.mergeSort byScoreDesc
  let summary : PredictionSummary :=
    { totalProjects := projects.length
      compatibleCount := compatibleSorted.length
      incompatibleCount := incompatibleSorted.length
      compatibilityRate := (compatibleSorted.length : ℚ) / (projects.length : ℚ) * 100
      averageScore := (totalScore : ℚ) / (projects.length : ℚ)
      systemRating := GetSystemRating system }
  let recommendations := generateRecommendations projects system compatibleSorted incompatibleSorted
  { compatibleProjects := compatibleSorted
    incompatibleProjects := incompatibleSorted
    summary := summary
    recommendations := recommendations
    generatedAt := now }

/-- Value of a list of decimal digit characters. -/
def decDigitsVal (l : List Char) : Nat :=
  l.foldl (fun a c => a * 10 + (c.toNat - 48)) 0

/-- A nonempty all-digit character list parses to its value. -/
def parseDigits (l : List Char) : Option Nat :=
  if l ≠ [] ∧ l.all Char.isDigit then some (decDigitsVal l) else none

/-- `strconv.Atoi` on 64-bit: optional sign then decimal digits, and an
`ErrRange` failure when the value leaves the `int64` range
[-9223372036854775808, 9223372036854775807] (on which `getIntField` falls
through to the next field name). -/
def goAtoi (s : String) : Option Int :=
  match s.data with
  | '-' :: rest =>
    (parseDigits rest).bind (fun n =>
      if n ≤ 9223372036854775808 then some (-(n : Int)) else none)
  | '+' :: rest =>
    (parseDigits rest).bind (fun n =>
      if n ≤ 9223372036854775807 then some ((n : Int)) else none)
  | l =>
    (parseDigits l).bind (fun n =>
      if n ≤ 9223372036854775807 then some ((n : Int)) else none)

/-- `strings.ReplaceAll(s, " ", "_")` (one-character pattern, so a character
map). -/
def goReplaceSpaceUnderscore (s : String) : String :=
  String.mk (s.data.map (fun c => if c = ' ' then '_' else c))

/-- Header-name normalization in `createFieldMap`:
`ToLower(ReplaceAll(TrimSpace(field), " ", "_"))`. -/
def normalizeField (f : String) : String :=
  goToLower (goReplaceSpaceUnderscore (goTrim f))

/-- `data.createFieldMap`: name → column index.  A Go map assignment lets a
later duplicate header overwrite an earlier one; the association list keeps
insertion order and `lookupField` takes the last match. -/
def createFieldMap (header : List String) : List (String × Nat) :=
  header.enum.map (fun e => (normalizeField e.2, e.1))

/-- Go map lookup over the association list built by `createFieldMap`
(last binding for a key wins, as with repeated map assignment). -/
def lookupField (m : List (String × Nat)) (name : String) : Option Nat :=
  m.foldl (fun acc e => if e.1 = name then some e.2 else acc) none

/-- `data.getStringField`: first field name that resolves to an in-range column
with a nonempty trimmed value; `""` otherwise. -/
def getStringField (record : List String) (m : List (String × Nat)) : List String → String
  | [] => ""
  | n :: ns =>
    match lookupField m n with
    | some idx =>
      if h : idx < record.length then
        let value := goTrim (record.get ⟨idx, h⟩)
        if value ≠ "" then value else getStringField record m ns
      else getStringField record m ns
    | none => getStringField record m ns

/-- `data.getIntField`: first field name whose trimmed value parses with
`strconv.Atoi`; `0` otherwise (an empty value never parses). -/
def getIntField (record : List String) (m : List (String × Nat)) : List String → Int
  | [] => 0
  | n :: ns =>
    match lookupField m n with
    | some idx =>
      if h : idx < record.length then
        let value := goTrim (record.get ⟨idx, h⟩)
        match goAtoi value with
        | some i => i
        | none => getIntField record m ns
      else getIntField record m ns
    | none => getIntField record m ns

/-- `data.getBoolField`: the first field name that resolves to an in-range
column decides immediately (TRUE/1/YES/Y after trim and upcase); `false` if no
name resolves. -/
def getBoolField (record : List String) (m : List (String × Nat)) : List String → Bool
  | [] => false
  | n :: ns =>
    match lookupField m n with
    | some idx =>
      if h : idx < record.length then
        let value := goToUpper (goTrim (record.get ⟨idx, h⟩))
        value == "TRUE" || value == "1" || value == "YES" || value == "Y"
      else getBoolField record m ns
    | none => getBoolField record m ns

/-- `data.validateProject`, error result only.  The Go function receives the
project BY VALUE: the default assignments it performs on its local copy (see
`validateProjectDefaults`) are never seen by the caller, so only the range
checks are observable. -/
def validateProject (p : DePINProject) : Option String :=
  if p.name = "" then some "project name is required"
  else if p.cpuCoresMin < 0 ∨ p.cpuCoresMin > 64 then
    some ("invalid CPU cores minimum: " ++ toString p.cpuCoresMin)
  else if p.ramGBMin < 0 ∨ p.ramGBMin > 1024 then
    some ("invalid RAM minimum: " ++ toString p.ramGBMin)
  else if p.storageGBMin < 0 ∨ p.storageGBMin > 100000 then
    some ("invalid storage minimum: " ++ toString p.storageGBMin)
  else if p.networkMbpsMin < 0 ∨ p.networkMbpsMin > 100000 then
    some ("invalid network speed minimum: " ++ toString p.networkMbpsMin)
  else none

/-- The sequence of default assignments `data.validateProject` performs on its
by-value copy of the project (`Type`/`NodeType`/`StorageType`/`CostCategory`/
`SupportedOS`).  In the Go source this mutated copy is discarded when the
function returns. -/
def validateProjectDefaults (p : DePINProject) : DePINProject :=
  let p := if p.type = "" then { p with type := "Unknown" } else p
  let p := if p.nodeType = "" then { p with nodeType := "Standard" } else p
  let p := if p.storageType = "" then { p with storageType := "Any" } else p
  let p :=
    if p.costCategory = "" then
      { p with costCategory :=
          if p.estimatedCostMax ≤ 20 then "Low"
          else if p.estimatedCostMax ≤ 100 then "Medium"
          else "High" }
    else p
  if p.supportedOS = "" then { p with supportedOS := "Linux,Windows,macOS" } else p

/-- `data.parseProjectRecord`: extract every field, then validate.  (The line
number only feeds error text in the source and is omitted.) -/
def parseProjectRecord (m : List (String × Nat)) (record : List String) :
    Except String DePINProject :=
  let name := getStringField record m ["project_name", "name"]
  if name = "" then Except.error "project name is required"
  else
    let project : DePINProject :=
      { name := name
        type := getStringField record m ["project_type", "type"]
        nodeType := getStringField record m ["node_type"]
        cpuCoresMin := getIntField record m ["cpu_cores_min"]
        ramGBMin := getIntField record m ["ram_gb_min", "ram_min_gb"]
        ramGBRecommended := getIntField record m ["ram_gb_recommended", "ram_recommended_gb"]
        storageGBMin := getIntField record m ["storage_gb_min", "storage_min_gb"]
        storageType := getStringField record m ["storage_type"]
        gpuRequired := getBoolField record m ["gpu_required"]
        gpuVramGBMin := getIntField record m ["gpu_vram_gb_min", "gpu_vram_min_gb"]
        networkMbpsMin := getIntField record m ["network_speed_mbps_min", "network_mbps_min"]
        supportedOS := getStringField record m ["supported_os", "os_support"]
        estimatedCostMin := getIntField record m ["estimated_monthly_cost_usd_min", "cost_min"]
        estimatedCostMax := getIntField record m ["estimated_monthly_cost_usd_max", "cost_max"]
        costCategory := getStringField record m ["cost_category"]
        homeFriendly := getBoolField record m ["home_friendly"]
        description := getStringField record m ["description", "additional_requirements"] }
    match validateProject project with
    | some e => Except.error ("validation failed: " ++ e)
    | none => Except.ok project

/-- The row loop of `LoadDePINSpecs`.  Each loop iteration first calls
`reader.Read()`, modelled per row as `Option (List String)`: `none` stands for
a `reader.Read()` error on that row (a CSV-syntax-malformed row — with
`FieldsPerRecord = -1` field-count mismatches are not errors, but e.g. a bare
quote is), which aborts the WHOLE load with `failed to read CSV line N`.  A row
that reads fine but fails `parseProjectRecord` is skipped with a warning;
successful records accumulate in file order. -/
def loadRows (m : List (String × Nat)) :
    List (Option (List String)) → Except String (List DePINProject)
  | [] => Except.ok []
  | none :: _ => Except.error "failed to read CSV line"
  | some r :: rs =>
    match parseProjectRecord m r with
    | Except.error _ => loadRows m rs
    | Except.ok p => (loadRows m rs).map (fun ps => p :: ps)

/-- `data.LoadDePINSpecs`.  The external CSV file is modelled as
`Option (List (Option (List String)))`: the outer `none` when the file cannot
be opened; otherwise the sequence of `reader.Read()` results, each either
`some fields` or `none` for a row on which the CSV reader errors.  The header
is the first read: an empty file (EOF) or a read error there yields
`failed to read CSV header`. -/
def LoadDePINSpecs (file : Option (List (Option (List String)))) :
    Except String (List DePINProject) :=
  match file with
  | none => Except.error "failed to open CSV file"
  | some [] => Except.error "failed to read CSV header"
  | some (none :: _) => Except.error "failed to read CSV header"
  | some (some header :: rows) =>
    let fieldMap := createFieldMap header
    match loadRows fieldMap rows with
    | Except.error e => Except.error e
    | Except.ok projects =>
      if projects = [] then Except.error "no valid projects found in CSV file"
      else Except.ok projects

/-! ## Scorer characterization lemmas -/

lemma notAnd_chain_false_iff (b1 b2 b3 b4 b5 b6 b7 b8 : Bool) :
    (!b1 && !b2 && !b3 && !b4 && !b5 && !b6 && !b7 && !b8) = false ↔
    (b1 = true ∨ b2 = true ∨ b3 = true ∨ b4 = true ∨ b5 = true ∨ b6 = true ∨
     b7 = true ∨ b8 = true) := by
  cases b1 <;> cases b2 <;> cases b3 <;> cases b4 <;> cases b5 <;> cases b6 <;>
    cases b7 <;> cases b8 <;> simp

lemma cpuFails_iff (s : SystemSpec) (p : DePINProject) :
    cpuFails s p = true ↔ s.cpuCores < p.cpuCoresMin := by simp [cpuFails]

lemma ramFails_iff (s : SystemSpec) (p : DePINProject) :
    ramFails s p = true ↔ s.ramGB < p.ramGBMin := by simp [ramFails]

lemma storageFails_iff (s : SystemSpec) (p : DePINProject) :
    storageFails s p = true ↔ s.storageGB < p.storageGBMin := by simp [storageFails]

lemma ssdFails_iff (s : SystemSpec) (p : DePINProject) :
    ssdFails s p = true ↔ (p.storageType = "SSD" ∧ s.hasSSD = false) := by
  simp [ssdFails, Bool.and_eq_true, beq_iff_eq, Bool.not_eq_true']

lemma gpuFails_iff (s : SystemSpec) (p : DePINProject) :
    gpuFails s p = true ↔ (p.gpuRequired = true ∧ s.hasGPU = false) := by
  simp [gpuFails, Bool.and_eq_true, Bool.not_eq_true']

lemma vramFails_iff (s : SystemSpec) (p : DePINProject) :
    vramFails s p = true ↔
      (¬(p.gpuRequired = true ∧ s.hasGPU = false) ∧
       0 < p.gpuVramGBMin ∧ s.gpuVramGB < p.gpuVramGBMin) := by
  simp only [vramFails, gpuFails, Bool.and_eq_true, Bool.not_eq_true', decide_eq_true_eq,
    Bool.and_eq_false_iff, Bool.not_eq_false, Bool.not_eq_true, not_and]
  constructor
  · rintro ⟨⟨hg, h1⟩, h2⟩
    exact ⟨by rcases hg with hg | hg <;> simp_all, h1, h2⟩
  · rintro ⟨hg, h1, h2⟩
    refine ⟨⟨?_, h1⟩, h2⟩
    by_cases hb : p.gpuRequired = true
    · right
      simp_all
    · left
      simp_all

lemma networkFails_iff (s : SystemSpec) (p : DePINProject) :
    networkFails s p = true ↔ s.networkMbps < p.networkMbpsMin := by simp [networkFails]

lemma osFails_iff (s : SystemSpec) (p : DePINProject) :
    osFails s p = true ↔ isOSCompatible s.os p.supportedOS = false := by
  simp [osFails]

/-- The Scorer's final score field is the clamp of the accumulated deltas. -/
lemma compatibilityScore_eq_clamp (s : SystemSpec) (p : DePINProject) :
    (analyzeProjectCompatibility s p).compatibilityScore
      = clamp (100 + cpuDelta s p + ramDelta s p + storageDelta s p + ssdDelta s p +
        gpuDelta s p + networkDelta s p + osDelta s p + calculatePerformanceBonus s p) := rfl

/-- **C1.** For every (SystemSpec, DePINProject) pair, the compatibility score
returned by `analyzeProjectCompatibility` lies in [0.0, 1.0] (in hundredths:
[0, 100]): after all dimension penalties and the performance bonus are
accumulated, the final score is clamped to that interval. -/
theorem compatibilityScore_in_unit_interval (s : SystemSpec) (p : DePINProject) :
    0 ≤ (analyzeProjectCompatibility s p).compatibilityScore ∧
    (analyzeProjectCompatibility s p).compatibilityScore ≤ 100 := by
  rw [compatibilityScore_eq_clamp]
  unfold clamp
  exact ⟨le_max_left 0 _, max_le (by norm_num) (min_le_left _ _)⟩

/-- **C2.** The Scorer's `compatible` flag is `false` exactly when some
dimension of the §4.1 table signals failure (CPU cores, RAM minimum, storage
capacity, SSD requirement, GPU presence, GPU VRAM — the latter only evaluated
when the GPU-presence check passed —, network speed, OS support), regardless of
the final clamped score.  In particular, when no dimension fails the flag stays
`true`, so a recommended-RAM shortfall alone (which only appears in
`recommendedUpgrades` and costs 0.1 of score) never changes the flag. -/
theorem compatible_false_iff_dimension_failure (s : SystemSpec) (p : DePINProject) :
    (analyzeProjectCompatibility s p).compatible = false ↔
      (s.cpuCores < p.cpuCoresMin ∨
       s.ramGB < p.ramGBMin ∨
       s.storageGB < p.storageGBMin ∨
       (p.storageType = "SSD" ∧ s.hasSSD = false) ∨
       (p.gpuRequired = true ∧ s.hasGPU = false) ∨
       (¬(p.gpuRequired = true ∧ s.hasGPU = false) ∧
        0 < p.gpuVramGBMin ∧ s.gpuVramGB < p.gpuVramGBMin) ∨
       s.networkMbps < p.networkMbpsMin ∨
       isOSCompatible s.os p.supportedOS = false) := by
  have h : (analyzeProjectCompatibility s p).compatible
      = (!cpuFails s p && !ramFails s p && !storageFails s p && !ssdFails s p &&
         !gpuFails s p && !vramFails s p && !networkFails s p && !osFails s p) := rfl
  rw [h, notAnd_chain_false_iff]
  rw [cpuFails_iff, ramFails_iff, storageFails_iff, ssdFails_iff, gpuFails_iff,
    vramFails_iff, networkFails_iff, osFails_iff]

/-- The Scenario B system of §8 of the spec. -/
def scenarioBSystem : SystemSpec :=
  { cpuCores := 2, ramGB := 4, storageGB := 100, hasSSD := false, hasGPU := false,
    gpuVramGB := 0, networkMbps := 10, os := "Windows" }

/-- The Scenario B project of §8 of the spec (all requirement fields not listed
there are zero/empty). -/
def scenarioBProject : DePINProject :=
  { name := "B", type := "", nodeType := "", cpuCoresMin := 8, ramGBMin := 16,
    ramGBRecommended := 0, storageGBMin := 1000, storageType := "SSD",
    gpuRequired := true, gpuVramGBMin := 0, networkMbpsMin := 200,
    supportedOS := "Linux", estimatedCostMin := 0, estimatedCostMax := 0,
    costCategory := "", homeFriendly := false, description := "" }

/-- **C3, counterexample.** On the Scenario B input the Scorer's
missing-requirements list does NOT have 6 entries: all seven dimensions (CPU,
RAM, storage, SSD, GPU presence, network, OS) append a diagnostic, so the
claimed count of exactly 6 is false. -/
theorem scenarioB_not_six_missing :
    ¬ (analyzeProjectCompatibility scenarioBSystem scenarioBProject).missingRequirements.length = 6 := by
  decide

/-- **C3, amended.** On the Scenario B input the Scorer returns
`compatible = false`, a missing-requirements list with exactly **7** entries,
a score clamped to 0.0, and performance rating "Poor". -/
theorem scenarioB_result :
    (analyzeProjectCompatibility scenarioBSystem scenarioBProject).compatible = false ∧
    (analyzeProjectCompatibility scenarioBSystem scenarioBProject).missingRequirements.length = 7 ∧
    (analyzeProjectCompatibility scenarioBSystem scenarioBProject).compatibilityScore = 0 ∧
    (analyzeProjectCompatibility scenarioBSystem scenarioBProject).performanceRating = "Poor" := by
  decide

/-! ## Aggregator theorems -/

lemma clamp_mono {a b : Int} (h : a ≤ b) : clamp a ≤ clamp b :=
  max_le_max le_rfl (min_le_min le_rfl h)

/-- **C4.** For every system spec and every (nonempty) catalog, the Aggregator
produces exactly one `CompatibilityResult` per catalog project — the
compatible and incompatible lists together are a permutation of the list of
per-project Scorer results, with no duplicates or omissions — so
`len(compatible) + len(incompatible)` equals the catalog size, and the
reported compatibility rate equals `100 × compatible_count / total_projects`
recomputed from the reported counts. -/
theorem predict_partitions_catalog (projects : List DePINProject) (system : SystemSpec)
    (t : Nat) (_h : 0 < projects.length) :
    (PredictCompatibility projects system t).compatibleProjects.length
      + (PredictCompatibility projects system t).incompatibleProjects.length
      = projects.length ∧
    ((PredictCompatibility projects system t).compatibleProjects ++
      (PredictCompatibility projects system t).incompatibleProjects).Perm
      (projects.map (analyzeProjectCompatibility system)) ∧
    (PredictCompatibility projects system t).summary.compatibilityRate
      = 100 * ((PredictCompatibility projects system t).summary.compatibleCount : ℚ)
        / ((PredictCompatibility projects system t).summary.totalProjects : ℚ) := by
  have h1 : (PredictCompatibility projects system t).compatibleProjects
      = ((projects.map (analyzeProjectCompatibility system)).filter
          (fun r => r.compatible)).mergeSort byScoreDesc := rfl
  have h2 : (PredictCompatibility projects system t).incompatibleProjects
      = ((projects.map (analyzeProjectCompatibility system)).filter
          (fun r => !r.compatible)).mergeSort byScoreDesc := rfl
  have hperm : ((PredictCompatibility projects system t).compatibleProjects ++
      (PredictCompatibility projects system t).incompatibleProjects).Perm
      (projects.map (analyzeProjectCompatibility system)) := by
    rw [h1, h2]
    refine ((List.mergeSort_perm _ _).append (List.mergeSort_perm _ _)).trans ?_
    exact List.filter_append_perm _ _
  refine ⟨?_, hperm, ?_⟩
  · have := hperm.length_eq
    simpa [List.length_append] using this
  · have e1 : (PredictCompatibility projects system t).summary.compatibilityRate
        = ((PredictCompatibility projects system t).summary.compatibleCount : ℚ)
          / ((PredictCompatibility projects system t).summary.totalProjects : ℚ) * 100 := rfl
    rw [e1]
    ring

/-- Witness for C4 on a one-project catalog. -/
theorem predict_partitions_catalog_witness :
    0 < ([scenarioBProject] : List DePINProject).length ∧
    ((PredictCompatibility [scenarioBProject] scenarioBSystem 0).compatibleProjects.length
      + (PredictCompatibility [scenarioBProject] scenarioBSystem 0).incompatibleProjects.length
      = ([scenarioBProject] : List DePINProject).length ∧
    ((PredictCompatibility [scenarioBProject] scenarioBSystem 0).compatibleProjects ++
      (PredictCompatibility [scenarioBProject] scenarioBSystem 0).incompatibleProjects).Perm
      (([scenarioBProject] : List DePINProject).map (analyzeProjectCompatibility scenarioBSystem)) ∧
    (PredictCompatibility [scenarioBProject] scenarioBSystem 0).summary.compatibilityRate
      = 100 * ((PredictCompatibility [scenarioBProject] scenarioBSystem 0).summary.compatibleCount : ℚ)
        / ((PredictCompatibility [scenarioBProject] scenarioBSystem 0).summary.totalProjects : ℚ)) :=
  ⟨by decide, predict_partitions_catalog [scenarioBProject] scenarioBSystem 0 (by decide)⟩

/-- **C9.** Determinism of the Aggregator: two calls with the same system and
catalog agree on every field of the response except the generation
timestamp. -/
theorem predict_time_independent (projects : List DePINProject) (system : SystemSpec)
    (t₁ t₂ : Nat) :
    (PredictCompatibility projects system t₁).compatibleProjects
      = (PredictCompatibility projects system t₂).compatibleProjects ∧
    (PredictCompatibility projects system t₁).incompatibleProjects
      = (PredictCompatibility projects system t₂).incompatibleProjects ∧
    (PredictCompatibility projects system t₁).summary
      = (PredictCompatibility projects system t₂).summary ∧
    (PredictCompatibility projects system t₁).recommendations
      = (PredictCompatibility projects system t₂).recommendations :=
  ⟨rfl, rfl, rfl, rfl⟩

/-! ## Monotonicity of the Scorer -/

lemma cpuDelta_mono (s : SystemSpec) (p : DePINProject) {c₁ c₂ : Int} (h : c₁ ≤ c₂) :
    cpuDelta { s with cpuCores := c₁ } p ≤ cpuDelta { s with cpuCores := c₂ } p := by
  simp only [cpuDelta]
  split_ifs <;> omega

lemma cpuBonus_mono (s : SystemSpec) (p : DePINProject) {c₁ c₂ : Int} (h : c₁ ≤ c₂) :
    cpuBonus { s with cpuCores := c₁ } p ≤ cpuBonus { s with cpuCores := c₂ } p := by
  simp only [cpuBonus]
  split_ifs <;> omega

lemma ramDelta_mono (s : SystemSpec) (p : DePINProject) {r₁ r₂ : Int} (h : r₁ ≤ r₂) :
    ramDelta { s with ramGB := r₁ } p ≤ ramDelta { s with ramGB := r₂ } p := by
  simp only [ramDelta]
  split_ifs <;> omega

lemma ramBonus_mono (s : SystemSpec) (p : DePINProject) {r₁ r₂ : Int} (h : r₁ ≤ r₂) :
    ramBonus { s with ramGB := r₁ } p ≤ ramBonus { s with ramGB := r₂ } p := by
  simp only [ramBonus]
  split_ifs <;> omega

lemma storageDelta_mono (s : SystemSpec) (p : DePINProject) {g₁ g₂ : Int} (h : g₁ ≤ g₂) :
    storageDelta { s with storageGB := g₁ } p ≤ storageDelta { s with storageGB := g₂ } p := by
  simp only [storageDelta]
  split_ifs <;> omega

lemma networkDelta_mono (s : SystemSpec) (p : DePINProject) {n₁ n₂ : Int} (h : n₁ ≤ n₂) :
    networkDelta { s with networkMbps := n₁ } p ≤ networkDelta { s with networkMbps := n₂ } p := by
  simp only [networkDelta]
  split_ifs <;> omega

lemma networkBonus_mono (s : SystemSpec) (p : DePINProject) {n₁ n₂ : Int} (h : n₁ ≤ n₂) :
    networkBonus { s with networkMbps := n₁ } p ≤ networkBonus { s with networkMbps := n₂ } p := by
  simp only [networkBonus]
  split_ifs <;> omega

/-- **C5.** Monotonicity of the Scorer: increasing any single system resource
among `cpu_cores`, `ram_gb`, `storage_gb`, `network_mbps` while holding all
other system fields fixed never decreases the compatibility score — proved for
every project, so in particular for one whose requirement on that dimension is
the binding constraint. -/
theorem compatibilityScore_monotone (s : SystemSpec) (p : DePINProject) :
    (∀ c₁ c₂ : Int, c₁ ≤ c₂ →
      (analyzeProjectCompatibility { s with cpuCores := c₁ } p).compatibilityScore ≤
      (analyzeProjectCompatibility { s with cpuCores := c₂ } p).compatibilityScore) ∧
    (∀ r₁ r₂ : Int, r₁ ≤ r₂ →
      (analyzeProjectCompatibility { s with ramGB := r₁ } p).compatibilityScore ≤
      (analyzeProjectCompatibility { s with ramGB := r₂ } p).compatibilityScore) ∧
    (∀ g₁ g₂ : Int, g₁ ≤ g₂ →
      (analyzeProjectCompatibility { s with storageGB := g₁ } p).compatibilityScore ≤
      (analyzeProjectCompatibility { s with storageGB := g₂ } p).compatibilityScore) ∧
    (∀ n₁ n₂ : Int, n₁ ≤ n₂ →
      (analyzeProjectCompatibility { s with networkMbps := n₁ } p).compatibilityScore ≤
      (analyzeProjectCompatibility { s with networkMbps := n₂ } p).compatibilityScore) := by
  refine ⟨fun c₁ c₂ h => ?_, fun r₁ r₂ h => ?_, fun g₁ g₂ h => ?_, fun n₁ n₂ h => ?_⟩
  · rw [compatibilityScore_eq_clamp, compatibilityScore_eq_clamp]
    apply clamp_mono
    have hb : calculatePerformanceBonus { s with cpuCores := c₁ } p ≤
        calculatePerformanceBonus { s with cpuCores := c₂ } p := by
      unfold calculatePerformanceBonus
      apply min_le_min _ le_rfl
      have h1 := cpuBonus_mono s p h
      have e1 : ramBonus { s with cpuCores := c₁ } p = ramBonus { s with cpuCores := c₂ } p := rfl
      have e2 : networkBonus { s with cpuCores := c₁ } p = networkBonus { s with cpuCores := c₂ } p := rfl
      have e3 : gpuBonus { s with cpuCores := c₁ } p = gpuBonus { s with cpuCores := c₂ } p := rfl
      omega
    have h1 := cpuDelta_mono s p h
    have e1 : ramDelta { s with cpuCores := c₁ } p = ramDelta { s with cpuCores := c₂ } p := rfl
    have e2 : storageDelta { s with cpuCores := c₁ } p = storageDelta { s with cpuCores := c₂ } p := rfl
    have e3 : ssdDelta { s with cpuCores := c₁ } p = ssdDelta { s with cpuCores := c₂ } p := rfl
    have e4 : gpuDelta { s with cpuCores := c₁ } p = gpuDelta { s with cpuCores := c₂ } p := rfl
    have e5 : networkDelta { s with cpuCores := c₁ } p = networkDelta { s with cpuCores := c₂ } p := rfl
    have e6 : osDelta { s with cpuCores := c₁ } p = osDelta { s with cpuCores := c₂ } p := rfl
    omega
  · rw [compatibilityScore_eq_clamp, compatibilityScore_eq_clamp]
    apply clamp_mono
    have hb : calculatePerformanceBonus { s with ramGB := r₁ } p ≤
        calculatePerformanceBonus { s with ramGB := r₂ } p := by
      unfold calculatePerformanceBonus
      apply min_le_min _ le_rfl
      have h1 := ramBonus_mono s p h
      have e1 : cpuBonus { s with ramGB := r₁ } p = cpuBonus { s with ramGB := r₂ } p := rfl
      have e2 : networkBonus { s with ramGB := r₁ } p = networkBonus { s with ramGB := r₂ } p := rfl
      have e3 : gpuBonus { s with ramGB := r₁ } p = gpuBonus { s with ramGB := r₂ } p := rfl
      omega
    have h1 := ramDelta_mono s p h
    have e1 : cpuDelta { s with ramGB := r₁ } p = cpuDelta { s with ramGB := r₂ } p := rfl
    have e2 : storageDelta { s with ramGB := r₁ } p = storageDelta { s with ramGB := r₂ } p := rfl
    have e3 : ssdDelta { s with ramGB := r₁ } p = ssdDelta { s with ramGB := r₂ } p := rfl
    have e4 : gpuDelta { s with ramGB := r₁ } p = gpuDelta { s with ramGB := r₂ } p := rfl
    have e5 : networkDelta { s with ramGB := r₁ } p = networkDelta { s with ramGB := r₂ } p := rfl
    have e6 : osDelta { s with ramGB := r₁ } p = osDelta { s with ramGB := r₂ } p := rfl
    omega
  · rw [compatibilityScore_eq_clamp, compatibilityScore_eq_clamp]
    apply clamp_mono
    have hb : calculatePerformanceBonus { s with storageGB := g₁ } p =
        calculatePerformanceBonus { s with storageGB := g₂ } p := rfl
    have h1 := storageDelta_mono s p h
    have e1 : cpuDelta { s with storageGB := g₁ } p = cpuDelta { s with storageGB := g₂ } p := rfl
    have e2 : ramDelta { s with storageGB := g₁ } p = ramDelta { s with storageGB := g₂ } p := rfl
    have e3 : ssdDelta { s with storageGB := g₁ } p = ssdDelta { s with storageGB := g₂ } p := rfl
    have e4 : gpuDelta { s with storageGB := g₁ } p = gpuDelta { s with storageGB := g₂ } p := rfl
    have e5 : networkDelta { s with storageGB := g₁ } p = networkDelta { s with storageGB := g₂ } p := rfl
    have e6 : osDelta { s with storageGB := g₁ } p = osDelta { s with storageGB := g₂ } p := rfl
    omega
  · rw [compatibilityScore_eq_clamp, compatibilityScore_eq_clamp]
    apply clamp_mono
    have hb : calculatePerformanceBonus { s with networkMbps := n₁ } p ≤
        calculatePerformanceBonus { s with networkMbps := n₂ } p := by
      unfold calculatePerformanceBonus
      apply min_le_min _ le_rfl
      have h1 := networkBonus_mono s p h
      have e1 : cpuBonus { s with networkMbps := n₁ } p = cpuBonus { s with networkMbps := n₂ } p := rfl
      have e2 : ramBonus { s with networkMbps := n₁ } p = ramBonus { s with networkMbps := n₂ } p := rfl
      have e3 : gpuBonus { s with networkMbps := n₁ } p = gpuBonus { s with networkMbps := n₂ } p := rfl
      omega
    have h1 := networkDelta_mono s p h
    have e1 : cpuDelta { s with networkMbps := n₁ } p = cpuDelta { s with networkMbps := n₂ } p := rfl
    have e2 : ramDelta { s with networkMbps := n₁ } p = ramDelta { s with networkMbps := n₂ } p := rfl
    have e3 : storageDelta { s with networkMbps := n₁ } p = storageDelta { s with networkMbps := n₂ } p := rfl
    have e4 : ssdDelta { s with networkMbps := n₁ } p = ssdDelta { s with networkMbps := n₂ } p := rfl
    have e5 : gpuDelta { s with networkMbps := n₁ } p = gpuDelta { s with networkMbps := n₂ } p := rfl
    have e6 : osDelta { s with networkMbps := n₁ } p = osDelta { s with networkMbps := n₂ } p := rfl
    omega

/-- Witness for C5: raising the Scenario B system's CPU cores from 2 to 8
(the binding CPU constraint of the Scenario B project) does not decrease the
score. -/
theorem compatibilityScore_monotone_witness :
    (2 : Int) ≤ 8 ∧
    (analyzeProjectCompatibility { scenarioBSystem with cpuCores := 2 } scenarioBProject).compatibilityScore ≤
    (analyzeProjectCompatibility { scenarioBSystem with cpuCores := 8 } scenarioBProject).compatibilityScore :=
  ⟨by decide, (compatibilityScore_monotone scenarioBSystem scenarioBProject).1 2 8 (by decide)⟩

/-! ## Upgrade-need recommendations -/

/-- First-match classification of a missing-requirement entry into the RAM
counter (the first `case` of the `switch`). -/
def classRAM (req : String) : Bool := strContains req "RAM"

/-- First-match classification into the CPU counter (second `case`: no RAM
match, CPU substring present). -/
def classCPU (req : String) : Bool := !strContains req "RAM" && strContains req "CPU"

/-- First-match classification into the GPU counter. -/
def classGPU (req : String) : Bool :=
  !strContains req "RAM" && !strContains req "CPU" && strContains req "GPU"

/-- First-match classification into the Storage-or-SSD counter. -/
def classStorage (req : String) : Bool :=
  !strContains req "RAM" && !strContains req "CPU" && !strContains req "GPU" &&
    (strContains req "Storage" || strContains req "SSD")

/-- First-match classification into the Network counter. -/
def classNetwork (req : String) : Bool :=
  !strContains req "RAM" && !strContains req "CPU" && !strContains req "GPU" &&
    !(strContains req "Storage" || strContains req "SSD") && strContains req "Network"

/-- The counter fold agrees with declarative first-match counts. -/
lemma countIssue_foldl (l : List String) (c : UpgradeCounts) :
    (l.foldl countIssue c).ram = c.ram + l.countP classRAM ∧
    (l.foldl countIssue c).cpu = c.cpu + l.countP classCPU ∧
    (l.foldl countIssue c).gpu = c.gpu + l.countP classGPU ∧
    (l.foldl countIssue c).storage = c.storage + l.countP classStorage ∧
    (l.foldl countIssue c).network = c.network + l.countP classNetwork := by
  induction l generalizing c with
  | nil => simp
  | cons a l ih =>
    simp only [List.foldl_cons, List.countP_cons]
    have h := ih (countIssue c a)
    simp only [countIssue] at h ⊢
    simp only [classRAM, classCPU, classGPU, classStorage, classNetwork]
    split_ifs with h1 h2 h3 h4 h5 <;> simp_all <;> omega

/-- The nested loop over results and their missing requirements equals one fold
over the flattened entry list. -/
lemma foldl_missing_eq_flatMap (rs : List CompatibilityResult) (c : UpgradeCounts) :
    rs.foldl (fun acc r => r.missingRequirements.foldl countIssue acc) c
      = (rs.flatMap (fun r => r.missingRequirements)).foldl countIssue c := by
  induction rs generalizing c with
  | nil => rfl
  | cons r rs ih => simp [List.flatMap_cons, List.foldl_append, ih]

/-- **C7.** `analyzeUpgradeNeeds` classifies every missing-requirements entry
across all incompatible results by case-sensitive first-match substring search
into the RAM/CPU/GPU/Storage-or-SSD/Network counters and emits each category's
suggestion string exactly when its counter strictly exceeds
`incompatible_count / 3` under floor division; the five checks are independent
(each contributes its own block of the output).  In particular, when
`incompatible_count ≤ 2` the threshold is 0, so any single matching issue
triggers the corresponding recommendation (second conjunct, for RAM). -/
theorem analyzeUpgradeNeeds_spec (system : SystemSpec) (incompatible : List CompatibilityResult) :
    (analyzeUpgradeNeeds system incompatible =
      (if (incompatible.flatMap (fun r => r.missingRequirements)).countP classRAM
          > incompatible.length / 3 then [ramSuggestion] else []) ++
      (if (incompatible.flatMap (fun r => r.missingRequirements)).countP classCPU
          > incompatible.length / 3 then [cpuSuggestion] else []) ++
      (if (incompatible.flatMap (fun r => r.missingRequirements)).countP classGPU
          > incompatible.length / 3 then [gpuSuggestion] else []) ++
      (if (incompatible.flatMap (fun r => r.missingRequirements)).countP classStorage
          > incompatible.length / 3 then [storageSuggestion] else []) ++
      (if (incompatible.flatMap (fun r => r.missingRequirements)).countP classNetwork
          > incompatible.length / 3 then [networkSuggestion] else [])) ∧
    (incompatible.length ≤ 2 →
      0 < (incompatible.flatMap (fun r => r.missingRequirements)).countP classRAM →
      ramSuggestion ∈ analyzeUpgradeNeeds system incompatible) := by
  have key : analyzeUpgradeNeeds system incompatible =
      (if (incompatible.flatMap (fun r => r.missingRequirements)).countP classRAM
          > incompatible.length / 3 then [ramSuggestion] else []) ++
      (if (incompatible.flatMap (fun r => r.missingRequirements)).countP classCPU
          > incompatible.length / 3 then [cpuSuggestion] else []) ++
      (if (incompatible.flatMap (fun r => r.missingRequirements)).countP classGPU
          > incompatible.length / 3 then [gpuSuggestion] else []) ++
      (if (incompatible.flatMap (fun r => r.missingRequirements)).countP classStorage
          > incompatible.length / 3 then [storageSuggestion] else []) ++
      (if (incompatible.flatMap (fun r => r.missingRequirements)).countP classNetwork
          > incompatible.length / 3 then [networkSuggestion] else []) := by
    simp only [analyzeUpgradeNeeds]
    rw [foldl_missing_eq_flatMap]
    have h := countIssue_foldl (incompatible.flatMap (fun r => r.missingRequirements))
      { ram := 0, cpu := 0, gpu := 0, storage := 0, network := 0 }
    rw [h.1, h.2.1, h.2.2.1, h.2.2.2.1, h.2.2.2.2]
    simp [Nat.zero_add]
  refine ⟨key, fun hlen hcnt => ?_⟩
  rw [key]
  have hth : incompatible.length / 3 = 0 := by omega
  rw [hth]
  rw [if_pos hcnt]
  exact List.mem_append_left _ (List.mem_append_left _ (List.mem_append_left _
    (List.mem_append_left _ (List.mem_singleton_self _))))

/-- A one-element incompatible list whose sole missing requirement is a RAM
diagnostic, for the C7 witness. -/
def ramOnlyIncompatible : CompatibilityResult :=
  { name := "W", compatible := false, compatibilityScore := 70,
    performanceRating := "Good", estimatedCost := "$0-$0/month",
    missingRequirements := [ramMsg 16 4], recommendedUpgrades := [], warnings := [] }

/-- Witness for C7: with a single incompatible result (threshold
`1 / 3 = 0`) whose one entry matches RAM, the RAM suggestion is emitted. -/
theorem analyzeUpgradeNeeds_spec_witness :
    ([ramOnlyIncompatible] : List CompatibilityResult).length ≤ 2 ∧
    0 < (([ramOnlyIncompatible] : List CompatibilityResult).flatMap
          (fun r => r.missingRequirements)).countP classRAM ∧
    ramSuggestion ∈ analyzeUpgradeNeeds scenarioBSystem [ramOnlyIncompatible] :=
  ⟨by decide, by decide,
    (analyzeUpgradeNeeds_spec scenarioBSystem [ramOnlyIncompatible]).2 (by decide) (by decide)⟩

/-- `strings.Contains` is preserved by appending on the right. -/
lemma strContains_append (s t pat : String) (h : strContains s pat = true) :
    strContains (s ++ t) pat = true := by
  simp only [strContains, decide_eq_true_eq] at h ⊢
  have hs : s.toList <:+: (s ++ t).toList := by
    have he : (s ++ t).toList = s.toList ++ t.toList := String.data_append s t
    rw [he]
    exact (List.prefix_append _ _).isInfix
  exact h.trans hs

/-- **C10.** Every GPU-VRAM shortfall diagnostic produced by the Scorer begins
"GPU VRAM: need ..." and therefore contains the substring "RAM"; since the
`switch` in `analyzeUpgradeNeeds` tests the RAM substring before the GPU one,
such an entry always increments the RAM counter and never the GPU counter. -/
theorem vram_diagnostic_counts_as_ram (a b : Int) (c : UpgradeCounts) :
    strContains (vramMsg a b) "RAM" = true ∧
    countIssue c (vramMsg a b) = { c with ram := c.ram + 1 } := by
  have h0 : strContains "GPU VRAM: need " "RAM" = true := by decide
  have h : strContains (vramMsg a b) "RAM" = true := by
    unfold vramMsg
    exact strContains_append _ _ _ (strContains_append _ _ _ (strContains_append _ _ _
      (strContains_append _ _ _ h0)))
  refine ⟨h, ?_⟩
  unfold countIssue
  rw [if_pos h]

/-! ## Catalog loader theorems -/

/-- On a run of cleanly read rows the row loop keeps exactly the successfully
parsed records, in order. -/
lemma loadRows_map_some (m : List (String × Nat)) (rows : List (List String)) :
    loadRows m (rows.map some)
      = Except.ok (rows.filterMap (fun r => (parseProjectRecord m r).toOption)) := by
  induction rows with
  | nil => rfl
  | cons r rs ih =>
    simp only [List.map_cons, loadRows, List.filterMap_cons]
    cases hp : parseProjectRecord m r <;> simp [Except.toOption, Except.map, ih]

/-- A `reader.Read()` error anywhere in the data rows aborts the row loop,
whatever precedes or follows it. -/
lemma loadRows_abort (m : List (String × Nat)) (pre : List (List String))
    (rest : List (Option (List String))) :
    loadRows m (pre.map some ++ none :: rest) = Except.error "failed to read CSV line" := by
  induction pre with
  | nil => rfl
  | cons r rs ih =>
    simp only [List.map_cons, List.cons_append, loadRows]
    cases hp : parseProjectRecord m r <;> simp [Except.map, ih]

/-- **C8, counterexample.** The claimed failure conditions are not exhaustive
and reader-level malformed rows are not skipped: a file that opens, whose
header reads fine, and which still contains a record that parses to a valid
project nonetheless fails to load when one data row errors in the CSV reader —
removing just that row makes the same load succeed. -/
theorem loadDePINSpecs_row_read_error_aborts :
    (LoadDePINSpecs (some [some ["project_name"], none, some ["X"]])).isOk = false ∧
    (LoadDePINSpecs (some [some ["project_name"], some ["X"]])).isOk = true ∧
    (parseProjectRecord (createFieldMap ["project_name"]) ["X"]).isOk = true := by
  decide

/-- **C8, amended.** Catalog loading recovers from a row that reads as CSV but
fails to parse or validate by skipping that record and continuing (third
conjunct), while a row on which the CSV reader itself errors aborts the whole
load (second conjunct); loading fails exactly when the source is
missing/unreadable, the header cannot be read, some data row fails the CSV
read, or zero valid records remain after filtering (first and fourth
conjuncts) — so the process never starts serving with an empty catalog. -/
theorem loadDePINSpecs_failure_modes :
    ((LoadDePINSpecs none).isOk = false ∧
     (LoadDePINSpecs (some [])).isOk = false ∧
     (∀ rest : List (Option (List String)),
        (LoadDePINSpecs (some (none :: rest))).isOk = false)) ∧
    (∀ (header : List String) (pre : List (List String)) (rest : List (Option (List String))),
      LoadDePINSpecs (some (some header :: (pre.map some ++ none :: rest)))
        = Except.error "failed to read CSV line") ∧
    (∀ (header bad : List String) (rows : List (Option (List String))),
      (parseProjectRecord (createFieldMap header) bad).isOk = false →
      LoadDePINSpecs (some (some header :: some bad :: rows))
        = LoadDePINSpecs (some (some header :: rows))) ∧
    (∀ (header : List String) (rows : List (List String)),
      LoadDePINSpecs (some (some header :: rows.map some)) =
        (if rows.filterMap (fun r => (parseProjectRecord (createFieldMap header) r).toOption) = []
         then Except.error "no valid projects found in CSV file"
         else Except.ok (rows.filterMap
                (fun r => (parseProjectRecord (createFieldMap header) r).toOption)))) := by
  refine ⟨⟨rfl, rfl, fun rest => rfl⟩, fun header pre rest => ?_,
    fun header bad rows hbad => ?_, fun header rows => ?_⟩
  · simp only [LoadDePINSpecs, loadRows_abort]
  · simp only [LoadDePINSpecs, loadRows]
    cases hp : parseProjectRecord (createFieldMap header) bad with
    | error e => rfl
    | ok p => rw [hp] at hbad; simp [Except.isOk, Except.toBool] at hbad
  · simp only [LoadDePINSpecs, loadRows_map_some]

/-- Witness for C8: a row with an empty project name fails to parse and is
skipped; the remaining row still loads. -/
theorem loadDePINSpecs_failure_modes_witness :
    (parseProjectRecord (createFieldMap ["project_name"]) [""]).isOk = false ∧
    LoadDePINSpecs (some [some ["project_name"], some [""], some ["X"]]) =
      LoadDePINSpecs (some [some ["project_name"], some ["X"]]) :=
  ⟨by decide,
    loadDePINSpecs_failure_modes.2.2.1 ["project_name"] [""] [some ["X"]] (by decide)⟩

/-- The concrete header and record exhibiting C6's failing input: a valid
record with an empty `cost_category` and an empty `supported_os`. -/
def c6Header : List String := ["project_name", "cost_category", "supported_os"]

/-- The record of the C6 failing input. -/
def c6Record : List String := ["TestNet", "", ""]

/-- **C6.** On a valid record with empty `cost_category` and `supported_os`,
`parseProjectRecord` accepts the record but returns it with BOTH fields still
empty — the defaults ("Low" inferred from the cost range, and
"Linux,Windows,macOS") are computed by `validateProject` only on its by-value
copy (`validateProjectDefaults`) and are discarded, so the loader does NOT
apply the field-level defaults the spec describes. -/
theorem parseProjectRecord_drops_defaults :
    (parseProjectRecord (createFieldMap c6Header) c6Record).toOption.map
      (fun p => p.costCategory) = some "" ∧
    (parseProjectRecord (createFieldMap c6Header) c6Record).toOption.map
      (fun p => p.supportedOS) = some "" ∧
    (parseProjectRecord (createFieldMap c6Header) c6Record).toOption.map
      (fun p => (validateProjectDefaults p).costCategory) = some "Low" ∧
    (parseProjectRecord (createFieldMap c6Header) c6Record).toOption.map
      (fun p => (validateProjectDefaults p).supportedOS) = some "Linux,Windows,macOS" := by
  decide

end ApiPredict
